import Mathlib

/-!
Shallow embedding of `backtester/backtester.py` (class `Backtest`).

Modelling conventions:
* Python floats are idealized as `ℚ`; pandas `NaN` cells are `Option ℚ` with `none` for `NaN`.
* A pandas frame indexed like the options inventory becomes a `List` of row structures; the
  per-leg column groups (one group per strategy leg) become `Fin n → LegRecord` where `n` is
  the number of legs of the configured strategy.
* Fallible Python operations (float division by zero raises `ZeroDivisionError`) return `Except`.
* Quantities produced by float floor-division are integer-valued, so they are stored as `ℤ`.
* The external `enums` module: `Direction.BUY.value = 'ask'`, `Direction.SELL.value = 'bid'`,
  `~d` flips a direction.  Order tags (`BTO`/`STO`/`BTC`/`STC`) never influence arithmetic or
  control flow in `backtester.py`, so the `order` column is elided from row records.
-/

namespace Backtester

/-- Trade direction, from the external `enums` module. -/
inductive Direction where
  | buy
  | sell
deriving DecidableEq

/-- The `~` operator on directions (`~BUY = SELL`, `~SELL = BUY`). -/
def Direction.invert : Direction → Direction
  | .buy => .sell
  | .sell => .buy

/-- One option quote row of the daily options slice (physical columns `optionroot`,
`underlying`, `expiration`, `type`, `strike`, `bid`, `ask`). -/
structure Quote where
  contract : String
  underlying : String
  expiration : Nat
  otype : String
  strike : ℚ
  bid : ℚ
  ask : ℚ
deriving DecidableEq

/-- `d.value` as a quote accessor: BUY trades at the ask, SELL at the bid. -/
def quoteFieldPrice : Direction → Quote → ℚ
  | .buy, q => q.ask
  | .sell, q => q.bid

/-- One leg's column group of an inventory / trade-log row
(`contract`, `underlying`, `expiration`, `type`, `strike`, `cost`). -/
structure LegRecord where
  contract : String
  underlying : String
  expiration : Nat
  otype : String
  strike : ℚ
  cost : ℚ
deriving DecidableEq

/-- The `totals` column group of an inventory / trade-log row. -/
structure Totals where
  cost : ℚ
  qty : ℤ
  date : Nat
deriving DecidableEq

/-- One multi-leg option combination row (`self._options_inventory` row, also the shape of a
trade-log row): one `LegRecord` per strategy leg plus the `totals` group. -/
structure InvRow (n : Nat) where
  legs : Fin n → LegRecord
  totals : Totals

/-- One stock inventory row (`self._stocks_inventory`: columns `symbol`, `price`, `qty`). -/
structure StockHolding where
  symbol : String
  price : ℚ
  qty : ℤ
deriving DecidableEq

/-- One configured stock (external `Stock` enum member: symbol and target percentage). -/
structure StockSpec where
  symbol : String
  percentage : ℚ
deriving DecidableEq

/-- One strategy leg (external `Strategy` object), as `backtester.py` consumes it.
The exit filter is applied to the left-joined quote row of each held contract, which is
missing (`none`) when the contract is absent from the day's slice.  The entry filter is not
modelled here: entry execution below takes the already-filtered candidate rows as input. -/
structure Leg where
  name : String
  direction : Direction
  exitFilter : Option Quote → Bool

/-- One row of `self.balance` (the balance ledger) before the derived columns are added:
`cash`, one capital column per configured stock, `options qty`, `calls capital`,
`puts capital`, `stocks qty`.  Cells are `Option ℚ` because rows appended at different times
have different column sets (absent cells are `NaN`). -/
structure LedgerRow where
  date : Nat
  cash : Option ℚ
  stockCaps : List (Option ℚ)
  optionsQty : Option ℚ
  callsCap : Option ℚ
  putsCap : Option ℚ
  stocksQty : Option ℚ

/-- The mutable state of one `Backtest` run: `self.current_cash`, `self._stocks_inventory`,
`self._options_inventory`, `self.trade_log`, `self.balance`. -/
structure BTState (n : Nat) where
  currentCash : ℚ
  stocksInventory : List StockHolding
  optionsInventory : List (InvRow n)
  tradeLog : List (InvRow n)
  balance : List LedgerRow

/-! ### Constructor (`Backtest.__init__`, lines 14-22) -/

/-- Python `dict.get(key, dflt)` for a string-keyed dict of numbers. -/
def dictGet (d : List (String × ℚ)) (key : String) (dflt : ℚ) : ℚ :=
  match d.find? (fun p => p.1 == key) with
  | some p => p.2
  | none => dflt

/-- `total_allocation = sum(allocation.get(a, 0.0) for a in ('stocks', 'options', 'cash'))`. -/
def totalAllocation (a : List (String × ℚ)) : ℚ :=
  dictGet a "stocks" 0 + dictGet a "options" 0 + dictGet a "cash" 0

/-- Python float division: raises `ZeroDivisionError` on a zero denominator. -/
def pyDiv (x y : ℚ) : Except String ℚ :=
  if y = 0 then Except.error "ZeroDivisionError" else Except.ok (x / y)

/-- The normalized allocation fractions stored in `self.allocation`. -/
structure BacktestAllocation where
  stocks : ℚ
  options : ℚ
  cash : ℚ
deriving DecidableEq

/-- `Backtest.__init__` normalization loop (lines 17-22):
`self.allocation[asset] = allocation.get(asset, 0.0) / total_allocation` for each asset. -/
def backtestInit (a : List (String × ℚ)) : Except String BacktestAllocation := do
  let t := totalAllocation a
  let s ← pyDiv (dictGet a "stocks" 0) t
  let o ← pyDiv (dictGet a "options" 0) t
  let c ← pyDiv (dictGet a "cash" 0) t
  Except.ok ⟨s, o, c⟩

/-! ### Cost conventions and quote lookup -/

/-- Entry cost of one leg candidate (lines 352, 367-370): the price is the leg direction's
quote side (`cost_field = leg.direction.value`), negated for SELL legs, scaled by
`shares_per_contract`. -/
def entryCost (d : Direction) (price spc : ℚ) : ℚ :=
  (if d = Direction.sell then -price else price) * spc

/-- Closing cost of one held leg (lines 498-504): the price is the opposite side's quote
(`(~leg.direction).value`), negated when the closing side is a sell
(`~leg.direction == SELL`), scaled by `shares_per_contract`. -/
def closeCost (d : Direction) (q : Quote) (spc : ℚ) : ℚ :=
  (if d.invert = Direction.sell then -(quoteFieldPrice d.invert q) else quoteFieldPrice d.invert q)
    * spc

/-- Left join of one inventory contract against the day's option slice (lines 490-493).
Contracts are assumed unique within a slice, so the join yields at most one match;
`none` models the all-`NaN` row of an unmatched contract. -/
def lookupQuote (options : List Quote) (contract : String) : Option Quote :=
  options.find? (fun q => q.contract == contract)

/-! ### Option entry execution (`_execute_option_entries`, lines 334-387)

The per-leg filtering (lines 344-372) is abstracted by taking the surviving candidate rows
as input: `cands` is the list of positionally-aligned combinations, each row giving one
quote per leg (spec §4.5 assumes row *i* across the per-leg frames forms one combination).
An empty `cands` models the early return taken when some leg has no surviving candidate. -/

/-- One leg's column group of an entry row: fields from the candidate quote, cost by the
entry convention. -/
def entryLegRecord (spc : ℚ) (d : Direction) (q : Quote) : LegRecord :=
  { contract := q.contract
    underlying := q.underlying
    expiration := q.expiration
    otype := q.otype
    strike := q.strike
    cost := entryCost d (quoteFieldPrice d q) spc }

/-- `total_costs` for one candidate combination (line 375): sum of the legs' signed,
multiplier-scaled costs. -/
def comboTotalCost {n : Nat} (legsSpec : Fin n → Leg) (spc : ℚ) (row : Fin n → Quote) : ℚ :=
  ∑ i, (entryLegRecord spc (legsSpec i).direction (row i)).cost

/-- `qty = np.abs(options_allocation // total_costs)` (line 376): the absolute value of the
floor of the quotient. -/
def entryQty (allocDollars totalCost : ℚ) : ℤ :=
  |⌊allocDollars / totalCost⌋|

/-- The full entry row built for one candidate combination (lines 374-380). -/
def entryRow {n : Nat} (legsSpec : Fin n → Leg) (spc allocDollars : ℚ) (date : Nat)
    (row : Fin n → Quote) : InvRow n :=
  { legs := fun i => entryLegRecord spc (legsSpec i).direction (row i)
    totals :=
      { cost := comboTotalCost legsSpec spc row
        qty := entryQty allocDollars (comboTotalCost legsSpec spc row)
        date := date } }

/-- `_execute_option_entries` (lines 334-387).  `_pick_entry_signals` picks `iloc[0]`, the
first candidate row (line 454); the chosen row is appended to the options inventory and the
trade log, and `self.current_cash -= sum(total_costs)` subtracts the sum of the *per-unit*
total costs of *all* candidate rows (line 387). -/
def executeOptionEntries {n : Nat} (legsSpec : Fin n → Leg) (spc : ℚ) (date : Nat)
    (cands : List (Fin n → Quote)) (allocDollars : ℚ) (st : BTState n) : BTState n :=
  match cands with
  | [] => st
  | r0 :: _ =>
    { st with
      optionsInventory := st.optionsInventory ++ [entryRow legsSpec spc allocDollars date r0]
      tradeLog := st.tradeLog ++ [entryRow legsSpec spc allocDollars date r0]
      currentCash := st.currentCash - (cands.map (comboTotalCost legsSpec spc)).sum }

/-! ### Forced liquidation (`_sell_options`, lines 196-230) -/

/-- One leg of a forced-close row.  Lines 200-213: the left-joined close quote gives the
fields and the closing cost; a missing contract leaves the row `NaN`, and
`candidates.fillna(imputed_inventory)` fills it from `self._impute_missing_option_values(
self._options_inventory)`.  Since the inventory itself has no `NaN`, that call returns the
inventory unchanged, so *every* field of a missing leg — including `cost` — is filled from
the inventory row (the method's comment announces a zero cost, but the zero-cost copy is
the `fillna` argument of the wrong frame). -/
def forcedCloseLeg (spc : ℚ) (options : List Quote) (d : Direction) (il : LegRecord) :
    LegRecord :=
  match lookupQuote options il.contract with
  | some q =>
    { contract := il.contract
      underlying := q.underlying
      expiration := q.expiration
      otype := q.otype
      strike := q.strike
      cost := closeCost d q spc }
  | none => il

/-- The forced-close row built for one held combination (lines 200-221): per-leg close
records, `totals.cost` the sum of leg close costs, `totals.qty` the held quantity,
`totals.date` the current date. -/
def forcedCloseRow {n : Nat} (legsSpec : Fin n → Leg) (spc : ℚ) (options : List Quote)
    (date : Nat) (r : InvRow n) : InvRow n :=
  { legs := fun i => forcedCloseLeg spc options (legsSpec i).direction (r.legs i)
    totals :=
      { cost := ∑ i, (forcedCloseLeg spc options (legsSpec i).direction (r.legs i)).cost
        qty := r.totals.qty
        date := date } }

/-- `_sell_options` (lines 196-230): `exits_mask` is all-`True` (line 223), so every
inventory row is dropped (line 228); all close rows are appended to the trade log
(line 229); cash decreases by the sum over rows of close cost × held quantity
(lines 226, 230). -/
def sellOptions {n : Nat} (legsSpec : Fin n → Leg) (spc : ℚ) (options : List Quote)
    (date : Nat) (st : BTState n) : BTState n :=
  let closed := st.optionsInventory.map (forcedCloseRow legsSpec spc options date)
  let exitsMask : InvRow n → Bool := fun _ => true
  { st with
    optionsInventory := st.optionsInventory.filter (fun r => !(exitsMask r))
    tradeLog := st.tradeLog ++ closed
    currentCash :=
      st.currentCash - (closed.map (fun c => c.totals.cost * (c.totals.qty : ℚ))).sum }

/-! ### Stock entry (`_buy_stocks`, lines 269-289) -/

/-- Quantity formula of `_buy_stocks` (lines 284-287): floor division of the allocated
dollars by the price, forced to zero under an SMA filter unless `sma < price`.
`smaCol` is `some` exactly when `sma_days` was passed to `run`. -/
def stockQty (smaCol : Option (String → ℚ)) (symbol : String) (allocDollars price : ℚ) : ℤ :=
  match smaCol with
  | some sma => if sma symbol < price then ⌊allocDollars / price⌋ else 0
  | none => ⌊allocDollars / price⌋

/-- `_buy_stocks` (lines 269-289): rebuilds the stock inventory wholesale, one row per
configured stock, with target dollars `allocation * stock.percentage`. -/
def buyStocks {n : Nat} (stockSpecs : List StockSpec) (stockPrice : String → ℚ)
    (smaCol : Option (String → ℚ)) (allocDollars : ℚ) (st : BTState n) : BTState n :=
  { st with
    stocksInventory := stockSpecs.map (fun s =>
      { symbol := s.symbol
        price := stockPrice s.symbol
        qty := stockQty smaCol s.symbol (allocDollars * s.percentage) (stockPrice s.symbol) }) }

/-! ### Rebalance procedure (`_rebalance_portfolio`, lines 166-194) -/

/-- `_current_stock_capital` (lines 232-246): current inventory valued at the day's
adjusted close, summed (every held symbol is assumed present in the day's slice). -/
def currentStockCapital {n : Nat} (stockPrice : String → ℚ) (st : BTState n) : ℚ :=
  (st.stocksInventory.map (fun h => stockPrice h.symbol * (h.qty : ℚ))).sum

/-- `_rebalance_portfolio` (lines 166-194): sell all held options, derive the dollar
targets from `cash + stock capital`, clear both inventories, re-enter stocks and options,
and recompute cash as the residual `total_capital - options_value - stocks_value`. -/
def rebalancePortfolio {n : Nat} (legsSpec : Fin n → Leg) (spc : ℚ)
    (alloc : BacktestAllocation) (date : Nat) (stockSpecs : List StockSpec)
    (stockPrice : String → ℚ) (smaCol : Option (String → ℚ)) (options : List Quote)
    (cands : List (Fin n → Quote)) (st : BTState n) : BTState n :=
  let st1 := sellOptions legsSpec spc options date st
  let stockCapital := currentStockCapital stockPrice st1
  let totalCapital := st1.currentCash + stockCapital
  let optionsAllocation := alloc.options * totalCapital
  let stocksAllocation := alloc.stocks * totalCapital
  -- `_initialize_inventories` (line 185) clears both inventories
  let st2 := { st1 with optionsInventory := ([] : List (InvRow n)), stocksInventory := [] }
  let st3 := buyStocks stockSpecs stockPrice smaCol stocksAllocation st2
  let st4 := executeOptionEntries legsSpec spc date cands optionsAllocation st3
  let stocksValue := (st4.stocksInventory.map (fun h => h.price * (h.qty : ℚ))).sum
  let optionsValue :=
    (st4.optionsInventory.map (fun r => r.totals.cost * (r.totals.qty : ℚ))).sum
  { st4 with currentCash := totalCapital - optionsValue - stocksValue }

/-! ### Balance ledger (`_update_balance`, lines 291-332) -/

/-- Elementwise pandas `+` of two possibly-`NaN` cells: `NaN` propagates. -/
def nanAdd (a b : Option ℚ) : Option ℚ :=
  match a, b with
  | some x, some y => some (x + y)
  | _, _ => none

/-- Python `sum` over a collection of cells starting from the scalar `0`
(`NaN` propagates, the empty sum is `0`). -/
def seriesSum (l : List (Option ℚ)) : Option ℚ :=
  l.foldl nanAdd (some 0)

/-- Value of one held leg contract on one date (lines 304-311):
`current[(~leg.direction).value] * qty * self.shares_per_contract`, `NaN` when the contract
has no quote on that date. -/
def legDateValue (optQuoteAt : String → Nat → Option Quote) (spc : ℚ) (d : Direction)
    (qty : ℤ) (contract : String) (date : Nat) : Option ℚ :=
  (optQuoteAt contract date).map (fun q => quoteFieldPrice d.invert q * (qty : ℚ) * spc)

/-- Contribution of one inventory row to `calls_value` on one date: the sum of its
call-typed legs' values (lines 299-311; contracts are assumed distinct across inventory
rows, as the per-contract query then takes the first matching quantity). -/
def rowCallsValue {n : Nat} (legsSpec : Fin n → Leg) (spc : ℚ)
    (optQuoteAt : String → Nat → Option Quote) (r : InvRow n) (date : Nat) : Option ℚ :=
  seriesSum ((List.finRange n).filterMap (fun i =>
    if (r.legs i).otype = "call" then
      some (legDateValue optQuoteAt spc (legsSpec i).direction r.totals.qty
        (r.legs i).contract date)
    else none))

/-- Contribution of one inventory row to `puts_value` on one date (the `else` branch of
line 308: every non-call leg). -/
def rowPutsValue {n : Nat} (legsSpec : Fin n → Leg) (spc : ℚ)
    (optQuoteAt : String → Nat → Option Quote) (r : InvRow n) (date : Nat) : Option ℚ :=
  seriesSum ((List.finRange n).filterMap (fun i =>
    if (r.legs i).otype = "call" then none
    else
      some (legDateValue optQuoteAt spc (legsSpec i).direction r.totals.qty
        (r.legs i).contract date)))

/-- `calls_value` for one date: accumulated over all inventory rows starting from `0`
(line 296). -/
def callsCapitalAt {n : Nat} (legsSpec : Fin n → Leg) (spc : ℚ)
    (optQuoteAt : String → Nat → Option Quote) (inv : List (InvRow n)) (date : Nat) :
    Option ℚ :=
  seriesSum (inv.map (fun r => rowCallsValue legsSpec spc optQuoteAt r date))

/-- `puts_value` for one date (line 297). -/
def putsCapitalAt {n : Nat} (legsSpec : Fin n → Leg) (spc : ℚ)
    (optQuoteAt : String → Nat → Option Quote) (inv : List (InvRow n)) (date : Nat) :
    Option ℚ :=
  seriesSum (inv.map (fun r => rowPutsValue legsSpec spc optQuoteAt r date))

/-- One ledger row appended by `_update_balance` for one date of the flushed period
(lines 313-327): per-stock capital `qty * adjClose`, the *current* scalar cash, held
option quantity, calls/puts capital, held stock quantity — all read from the state at
flush time. -/
def mkLedgerRow {n : Nat} (stockPriceAt : String → Nat → ℚ)
    (optQuoteAt : String → Nat → Option Quote) (legsSpec : Fin n → Leg) (spc : ℚ)
    (st : BTState n) (date : Nat) : LedgerRow :=
  { date := date
    cash := some st.currentCash
    stockCaps := st.stocksInventory.map (fun h => some ((h.qty : ℚ) * stockPriceAt h.symbol date))
    optionsQty := some ((st.optionsInventory.map (fun r => (r.totals.qty : ℚ))).sum)
    callsCap := callsCapitalAt legsSpec spc optQuoteAt st.optionsInventory date
    putsCap := putsCapitalAt legsSpec spc optQuoteAt st.optionsInventory date
    stocksQty := some ((st.stocksInventory.map (fun h => (h.qty : ℚ))).sum) }

/-- `_update_balance` (lines 291-332): appends one ledger row per date of the elapsed
period `[start_date, end_date)`; `periodDates` is that date range as present in the data. -/
def updateBalance {n : Nat} (stockPriceAt : String → Nat → ℚ)
    (optQuoteAt : String → Nat → Option Quote) (legsSpec : Fin n → Leg) (spc : ℚ)
    (periodDates : List Nat) (st : BTState n) : BTState n :=
  { st with
    balance :=
      st.balance ++ periodDates.map (mkLedgerRow stockPriceAt optQuoteAt legsSpec spc st) }

/-- The body of the main loop of `run` for one date (lines 118-123): on a rebalancing
date, first `_update_balance` for the elapsed period, then `_rebalance_portfolio` with the
current date's slices; on any other date, no state change. -/
def processDate {n : Nat} (isRebalancingDay : Bool) (periodDates : List Nat)
    (stockPriceAt : String → Nat → ℚ) (optQuoteAt : String → Nat → Option Quote)
    (legsSpec : Fin n → Leg) (spc : ℚ) (alloc : BacktestAllocation) (date : Nat)
    (stockSpecs : List StockSpec) (smaCol : Option (String → ℚ)) (options : List Quote)
    (cands : List (Fin n → Quote)) (st : BTState n) : BTState n :=
  if isRebalancingDay then
    rebalancePortfolio legsSpec spc alloc date stockSpecs (fun s => stockPriceAt s date)
      smaCol options cands
      (updateBalance stockPriceAt optQuoteAt legsSpec spc periodDates st)
  else st

/-! ### Derived balance columns at the end of `run` (lines 130-136) -/

/-- pandas `Series.add` with `fill_value` applied to one pair of aligned cells
(`pandas.core.ops.fill_binop`): a cell that is `NaN` while the other is not is replaced by
the fill value; two `NaN`s stay `NaN`. -/
def fillAdd (fv : ℚ) (a b : Option ℚ) : Option ℚ :=
  match a, b with
  | some x, some y => some (x + y)
  | some x, none => some (x + fv)
  | none, some y => some (fv + y)
  | none, none => none

/-- Line 130: `balance['options capital'] = balance['calls capital'] + balance['puts capital']`. -/
def derivedOptionsCapital (r : LedgerRow) : Option ℚ :=
  nanAdd r.callsCap r.putsCap

/-- Line 131: `balance['stocks capital'] = sum(balance[stock.symbol] for stock in self._stocks)`. -/
def derivedStocksCapital (r : LedgerRow) : Option ℚ :=
  seriesSum r.stockCaps

/-- Lines 132-134: `balance['total capital'] = balance['cash'].add(balance['stocks capital'],
balance['options capital'], fill_value=0)`.  pandas `Series.add` has the signature
`(other, level, fill_value, axis)`, so the options-capital column is bound to the `level`
parameter.  Both operand columns carry the same balance index, so `Series._binop` skips
the alignment step — the only consumer of `level` — and the options-capital column never
enters the computation: the result is `cash + stocks capital` with `fill_value=0`. -/
def derivedTotalCapital (r : LedgerRow) : Option ℚ :=
  fillAdd 0 r.cash (derivedStocksCapital r)

/-! ### Option exit execution (`_execute_option_exits`, lines 389-440)

Only lines 399-423 of this method ever execute.  Lines 402-414 run for every leg: the
per-leg exit masks are built from the pre-reindex joined frames (`legExitMask`), and each
leg's frame is then `reindex`ed to the *physical* column names of `_signal_fields` and
renamed — which drops the signed, multiplier-scaled `cost` column that
`_get_current_option_quotes` computed and labels the raw opposite-side quote column
(`bid`/`ask`) as `'cost'` instead.  Line 420 imputes missing rows from the zero-cost
inventory copy (`exitCandidateLeg`).  Line 424 then evaluates `self.legs`: class
`Backtest` defines no `legs` attribute or property (every other site reads
`strategy.legs` or `self._options_strategy.legs`), so the method raises
`AttributeError` there — before `total_costs`, the threshold mask, the final
`exits_mask` of lines 429-432, and the inventory/trade-log/cash updates of
lines 434-440.  The method also has no caller anywhere in the class. -/

/-- One leg's exit mask entry for one row (lines 406-409, executed): the leg's exit
predicate on the joined quote row, OR-ed with the missing-contract mask `cost.isna()`
(the joined cost is `NaN` exactly when the contract is absent from the slice). -/
def legExitMask (leg : Leg) (options : List Quote) (il : LegRecord) : Bool :=
  leg.exitFilter (lookupQuote options il.contract) || (lookupQuote options il.contract).isNone

/-- One leg of the imputed `exit_candidates` frame (lines 411-414 and 420, executed).
A matched contract's fields come from the joined quote, and — after the reindex slip —
its `'cost'` is the raw `(~leg.direction).value` quote, unsigned and unscaled, not the
closing cost computed at lines 499-504.  A missing contract's cells are all `NaN` and are
filled by `_impute_missing_option_values` (lines 510-523) from the inventory copy whose
per-leg `cost` has been set to `0`: its non-cost fields are the inventory's last known
values and its cost is exactly `0`. -/
def exitCandidateLeg (options : List Quote) (d : Direction) (il : LegRecord) : LegRecord :=
  match lookupQuote options il.contract with
  | some q =>
    { contract := q.contract
      underlying := q.underlying
      expiration := q.expiration
      otype := q.otype
      strike := q.strike
      cost := quoteFieldPrice d.invert q }
  | none => { il with cost := 0 }

/-- `_execute_option_exits` as a state transformer (lines 389-440).  The computations of
lines 402-420 (`legExitMask`, `exitCandidateLeg`) and the `qtys` read at line 423 have no
effect observable outside the method; line 424 reads the undefined attribute `self.legs`
and raises, so on every input the observable behaviour is `AttributeError`: no exit mask
is finalized and no inventory, trade-log or cash update is performed. -/
def executeOptionExits {n : Nat} (_legsSpec : Fin n → Leg) (_thresholds : ℚ → ℚ → Bool)
    (_spc : ℚ) (_date : Nat) (_options : List Quote) (_st : BTState n) :
    Except String (BTState n) :=
  Except.error "AttributeError"

/-! ### Concrete fixtures used by the claim witnesses and counterexamples -/

/-- A BUY leg whose exit predicate is constantly false. -/
def buyLegFix : Leg := ⟨"leg_1", Direction.buy, fun _ => false⟩

/-- A SELL leg whose exit predicate is constantly false. -/
def sellLegFix : Leg := ⟨"leg_2", Direction.sell, fun _ => false⟩

/-- A call quote with ask 0.80. -/
def callQuoteFix : Quote := ⟨"C100", "SPX", 30, "call", 100, 3/4, 4/5⟩

/-- A call quote with ask 2.00 (the BUY leg of the spec's vertical-spread scenario). -/
def buyQuoteFix : Quote := ⟨"CB", "SPX", 30, "call", 100, 19/10, 2⟩

/-- A call quote with bid 1.20 (the SELL leg of the spec's vertical-spread scenario). -/
def sellQuoteFix : Quote := ⟨"CS", "SPX", 30, "call", 105, 6/5, 13/10⟩

/-- A put quote with bid 0.805, giving a SELL leg an entry cost of −80.5. -/
def putQuoteFix : Quote := ⟨"P100", "SPX", 30, "put", 100, 161/200, 9/10⟩

/-- A one-leg strategy (the BUY leg). -/
def demoLegs1 : Fin 1 → Leg := ![buyLegFix]

/-- A two-leg vertical-spread strategy (BUY leg, SELL leg). -/
def demoLegs2 : Fin 2 → Leg := ![buyLegFix, sellLegFix]

/-- A threshold predicate that never triggers. -/
def noThresholds : ℚ → ℚ → Bool := fun _ _ => false

/-- A one-leg strategy consisting of the SELL leg. -/
def sellLegs1 : Fin 1 → Leg := ![sellLegFix]

/-- An empty starting state with the given cash. -/
def emptyState (n : Nat) (cash : ℚ) : BTState n := ⟨cash, [], [], [], []⟩

/-- An inventory leg record for contract `"X"`. -/
def xLegRec : LegRecord := ⟨"X", "SPX", 30, "call", 100, 80⟩

/-- A held one-leg combination on contract `"X"`, quantity 1. -/
def xInvRow : InvRow 1 := ⟨fun _ => xLegRec, ⟨80, 1, 0⟩⟩

/-- A state holding exactly the `"X"` combination. -/
def oneRowState : BTState 1 := ⟨0, [], [xInvRow], [], []⟩

/-- A quote for contract `"A"` with bid 1.50. -/
def aQuoteFix : Quote := ⟨"A", "SPX", 30, "call", 100, 3/2, 8/5⟩

/-- A held two-leg combination on contracts `"A"` (BUY) and `"B"` (SELL). -/
def abInvRow : InvRow 2 :=
  ⟨![⟨"A", "SPX", 30, "call", 100, 200⟩, ⟨"B", "SPX", 30, "call", 105, -120⟩], ⟨80, 1, 0⟩⟩

/-- A state holding exactly the `"A"`/`"B"` two-leg combination. -/
def abRowState : BTState 2 := ⟨0, [], [abInvRow], [], []⟩

/-! ## Claims -/

/-- C9: for every allocation dict accepted by the constructor (any dict whose relevant
values have a non-zero total), the stored normalized fractions for stocks, options and
cash sum to exactly 1, hence to 1.0 within 1e-6, regardless of the scale of the input
values. -/
theorem c9_normalized_allocation_sums_to_one (a : List (String × ℚ))
    (h : totalAllocation a ≠ 0) :
    ∃ na : BacktestAllocation, backtestInit a = Except.ok na ∧
      na.stocks + na.options + na.cash = 1 ∧
      |na.stocks + na.options + na.cash - 1| ≤ 1 / 1000000 := by
  have hsum : dictGet a "stocks" 0 / totalAllocation a
      + dictGet a "options" 0 / totalAllocation a
      + dictGet a "cash" 0 / totalAllocation a = 1 := by
    rw [div_add_div_same, div_add_div_same]
    exact div_self h
  refine ⟨⟨dictGet a "stocks" 0 / totalAllocation a,
    dictGet a "options" 0 / totalAllocation a,
    dictGet a "cash" 0 / totalAllocation a⟩, ?_, hsum, ?_⟩
  · simp only [backtestInit, pyDiv, if_neg h]
    rfl
  · rw [hsum]
    norm_num

/-- C9 witness: the allocation `{stocks: 2, options: 3, cash: 5}` (total 10, arbitrary
scale) yields fractions summing to exactly 1. -/
theorem c9_witness :
    totalAllocation [("stocks", (2 : ℚ)), ("options", 3), ("cash", 5)] ≠ 0 ∧
    ∃ na : BacktestAllocation,
      backtestInit [("stocks", (2 : ℚ)), ("options", 3), ("cash", 5)] = Except.ok na ∧
      na.stocks + na.options + na.cash = 1 ∧
      |na.stocks + na.options + na.cash - 1| ≤ 1 / 1000000 := by
  have hnz : totalAllocation [("stocks", (2 : ℚ)), ("options", 3), ("cash", 5)] ≠ 0 := by
    show (2 : ℚ) + 3 + 5 ≠ 0
    norm_num
  exact ⟨hnz, c9_normalized_allocation_sums_to_one _ hnz⟩

/-- C10: every allocation dict whose values for stocks, options and cash sum to zero makes
the constructor raise `ZeroDivisionError` instead of constructing an instance. -/
theorem c10_zero_total_allocation_raises (a : List (String × ℚ))
    (h : totalAllocation a = 0) :
    backtestInit a = Except.error "ZeroDivisionError" := by
  simp only [backtestInit, pyDiv, if_pos h]
  rfl

/-- C10 witness: the empty allocation dict raises `ZeroDivisionError`. -/
theorem c10_witness :
    totalAllocation [] = 0 ∧
    backtestInit [] = Except.error "ZeroDivisionError" := by
  have hz : totalAllocation [] = 0 := by
    show (0 : ℚ) + 0 + 0 = 0
    norm_num
  exact ⟨hz, c10_zero_total_allocation_raises [] hz⟩

/-- C1: the claim `total capital = cash + stocks capital + options capital` fails on the
code.  On the balance row with cash 100, one stock capital column 50, calls capital 20 and
puts capital 10, the derived options capital is 30 but the derived total capital is 150 —
`cash + stocks capital` only — because the options-capital column is bound to the `level`
parameter of `Series.add` and ignored.  The claimed value would be 180. -/
theorem c1_total_capital_omits_options_capital :
    derivedTotalCapital ⟨0, some 100, [some 50], some 1, some 20, some 10, some 0⟩
      = some 150 ∧
    derivedOptionsCapital ⟨0, some 100, [some 50], some 1, some 20, some 10, some 0⟩
      = some 30 ∧
    derivedStocksCapital ⟨0, some 100, [some 50], some 1, some 20, some 10, some 0⟩
      = some 50 ∧
    derivedTotalCapital ⟨0, some 100, [some 50], some 1, some 20, some 10, some 0⟩
      ≠ some (100 + 50 + 30) := by
  refine ⟨?_, ?_, ?_, ?_⟩
  · show some ((100 : ℚ) + (0 + 50)) = some 150
    norm_num
  · show some ((20 : ℚ) + 10) = some 30
    norm_num
  · show some ((0 : ℚ) + 50) = some 50
    norm_num
  · show some ((100 : ℚ) + (0 + 50)) ≠ some (100 + 50 + 30)
    norm_num

/-- C8: for every configured stock at every rebalance (given a positive price and a
non-negative per-stock dollar target), the entered quantity is a non-negative integer,
`quantity × price` does not exceed the stock's allocated dollars, and with an SMA window
configured the quantity is zero unless the price is strictly above the trailing SMA. -/
theorem c8_stock_entry_bounds {n : Nat} (stockSpecs : List StockSpec)
    (stockPrice : String → ℚ) (smaCol : Option (String → ℚ)) (allocDollars : ℚ)
    (st : BTState n) (s : StockSpec) (hmem : s ∈ stockSpecs)
    (hd : 0 ≤ allocDollars * s.percentage) (hp : 0 < stockPrice s.symbol) :
    ({ symbol := s.symbol, price := stockPrice s.symbol,
       qty := stockQty smaCol s.symbol (allocDollars * s.percentage) (stockPrice s.symbol) }
        : StockHolding)
      ∈ (buyStocks stockSpecs stockPrice smaCol allocDollars st).stocksInventory ∧
    0 ≤ stockQty smaCol s.symbol (allocDollars * s.percentage) (stockPrice s.symbol) ∧
    (stockQty smaCol s.symbol (allocDollars * s.percentage) (stockPrice s.symbol) : ℚ)
        * stockPrice s.symbol ≤ allocDollars * s.percentage ∧
    ∀ sma, smaCol = some sma → ¬ sma s.symbol < stockPrice s.symbol →
      stockQty smaCol s.symbol (allocDollars * s.percentage) (stockPrice s.symbol) = 0 := by
  have hfloor_nonneg : (0 : ℤ) ≤ ⌊allocDollars * s.percentage / stockPrice s.symbol⌋ :=
    Int.floor_nonneg.mpr (div_nonneg hd hp.le)
  have hfloor_bound :
      (⌊allocDollars * s.percentage / stockPrice s.symbol⌋ : ℚ) * stockPrice s.symbol
        ≤ allocDollars * s.percentage := by
    calc (⌊allocDollars * s.percentage / stockPrice s.symbol⌋ : ℚ) * stockPrice s.symbol
        ≤ allocDollars * s.percentage / stockPrice s.symbol * stockPrice s.symbol :=
          mul_le_mul_of_nonneg_right (Int.floor_le _) hp.le
      _ = allocDollars * s.percentage := div_mul_cancel₀ _ hp.ne'
  refine ⟨List.mem_map_of_mem _ hmem, ?_, ?_, ?_⟩
  · cases smaCol with
    | none => exact hfloor_nonneg
    | some sma =>
      by_cases hlt : sma s.symbol < stockPrice s.symbol
      · simpa [stockQty, hlt] using hfloor_nonneg
      · simp [stockQty, hlt]
  · cases smaCol with
    | none => exact hfloor_bound
    | some sma =>
      by_cases hlt : sma s.symbol < stockPrice s.symbol
      · simpa [stockQty, hlt] using hfloor_bound
      · simpa [stockQty, hlt] using hd
  · intro sma hEq hNot
    subst hEq
    simp [stockQty, hNot]

/-- C8 witness: one stock at 100% weight, price 50, stock dollar target 60000, no SMA
filter: the entered quantity is 1200 = ⌊60000/50⌋, non-negative, and 1200 × 50 ≤ 60000. -/
theorem c8_witness :
    ((⟨"SPY", 1⟩ : StockSpec) ∈ [(⟨"SPY", 1⟩ : StockSpec)]) ∧
    (0 : ℚ) ≤ 60000 * (1 : ℚ) ∧
    (0 : ℚ) < 50 ∧
    (0 ≤ stockQty none "SPY" (60000 * 1) 50 ∧
      (stockQty none "SPY" (60000 * 1) 50 : ℚ) * 50 ≤ 60000 * 1) ∧
    stockQty none "SPY" (60000 * 1) 50 = 1200 := by
  have h := c8_stock_entry_bounds [(⟨"SPY", 1⟩ : StockSpec)] (fun _ => 50) none 60000
    (⟨100000, [], [], [], []⟩ : BTState 0) ⟨"SPY", 1⟩ (List.mem_singleton.mpr rfl)
    (by norm_num) (by show (0 : ℚ) < 50; norm_num)
  refine ⟨List.mem_singleton.mpr rfl, by norm_num, by norm_num, ⟨h.2.1, h.2.2.1⟩, ?_⟩
  show (⌊(60000 * 1 : ℚ) / 50⌋ : ℤ) = 1200
  norm_num [Int.floor_eq_iff]

/-- C4: the first step of every rebalance closes every held option combination
unconditionally: `_sell_options` empties the options inventory, appends every closed
combination to the trade log, and realizes into cash the sum over held rows of closing
cost per unit × held quantity; and the rebalance's trade log extends the pre-rebalance
log by exactly those closed rows (followed only by the rebalance's own entries). -/
theorem c4_forced_liquidation {n : Nat} (legsSpec : Fin n → Leg) (spc : ℚ)
    (options : List Quote) (date : Nat) (alloc : BacktestAllocation)
    (stockSpecs : List StockSpec) (stockPrice : String → ℚ)
    (smaCol : Option (String → ℚ)) (cands : List (Fin n → Quote)) (st : BTState n) :
    (sellOptions legsSpec spc options date st).optionsInventory = [] ∧
    (sellOptions legsSpec spc options date st).tradeLog
      = st.tradeLog ++ st.optionsInventory.map (forcedCloseRow legsSpec spc options date) ∧
    (sellOptions legsSpec spc options date st).currentCash
      = st.currentCash
        - (st.optionsInventory.map (fun r =>
            (forcedCloseRow legsSpec spc options date r).totals.cost * (r.totals.qty : ℚ))).sum ∧
    ∃ rest,
      (rebalancePortfolio legsSpec spc alloc date stockSpecs stockPrice smaCol options cands
          st).tradeLog
        = (st.tradeLog ++ st.optionsInventory.map (forcedCloseRow legsSpec spc options date))
            ++ rest := by
  refine ⟨?_, rfl, ?_, ?_⟩
  · simp [sellOptions]
  · simp only [sellOptions, List.map_map]
    rfl
  · cases cands with
    | nil => exact ⟨[], (List.append_nil _).symm⟩
    | cons r0 rs => exact ⟨_, rfl⟩

/-- C5: on every rebalancing date the ledger flush for the elapsed period precedes the
rebalance, so the ledger rows appended for the period are computed from the pre-rebalance
state `st` (its cash and its stock and option inventories), never from the state the
rebalance produces. -/
theorem c5_flush_precedes_rebalance {n : Nat} (periodDates : List Nat)
    (stockPriceAt : String → Nat → ℚ) (optQuoteAt : String → Nat → Option Quote)
    (legsSpec : Fin n → Leg) (spc : ℚ) (alloc : BacktestAllocation) (date : Nat)
    (stockSpecs : List StockSpec) (smaCol : Option (String → ℚ)) (options : List Quote)
    (cands : List (Fin n → Quote)) (st : BTState n) :
    (processDate true periodDates stockPriceAt optQuoteAt legsSpec spc alloc date stockSpecs
        smaCol options cands st).balance
      = st.balance
        ++ periodDates.map (mkLedgerRow stockPriceAt optQuoteAt legsSpec spc st) := by
  cases cands <;> rfl

/-- C6: the claim fails on the code.  The per-leg mask of lines 406-409 does force a
missing contract toward exit — it is true for *every* exit predicate — but line 424 then
reads `self.legs`, which class `Backtest` never defines, so `_execute_option_exits`
raises `AttributeError` before the threshold mask or the final exit mask
(threshold OR per-leg masks) is assembled and before any row is removed from the
inventory or logged: on a held row whose contract is missing from the (empty) slice, the
method errors instead of producing any exit set at all. -/
theorem c6_exit_raises_attribute_error :
    legExitMask buyLegFix [] (xInvRow.legs 0) = true ∧
    (∀ flt : Option Quote → Bool,
      legExitMask ⟨"leg_1", Direction.buy, flt⟩ [] (xInvRow.legs 0) = true) ∧
    executeOptionExits demoLegs1 noThresholds 100 7 [] oneRowState
      = Except.error "AttributeError" := by
  refine ⟨rfl, fun flt => ?_, rfl⟩
  simp [legExitMask, lookupQuote]

/-- C7: the imputation half of the claim is real — in the executed frames of
lines 411-420, a leg whose contract (here `"B"`) is missing keeps its inventory non-cost
fields and gets cost exactly 0 — but the claimed consequence is not: no combination total
exit cost ever exists for the missing leg to contribute nothing to, because line 424
raises `AttributeError` on the undefined `self.legs` before `total_costs` is formed.
Moreover, the reindex slip of line 411 makes a matched leg's `'cost'` the raw unsigned,
unscaled opposite-side quote — here bid 3/2 for the BUY leg on `"A"`, not the signed
×100 closing cost −150 — so even the would-be summands are not the §4.4 closing costs. -/
theorem c7_exit_total_cost_never_computed :
    exitCandidateLeg [aQuoteFix] (demoLegs2 1).direction (abInvRow.legs 1)
      = { abInvRow.legs 1 with cost := 0 } ∧
    (exitCandidateLeg [aQuoteFix] (demoLegs2 1).direction (abInvRow.legs 1)).cost = 0 ∧
    (exitCandidateLeg [aQuoteFix] (demoLegs2 0).direction (abInvRow.legs 0)).cost = 3/2 ∧
    executeOptionExits demoLegs2 noThresholds 100 7 [aQuoteFix] abRowState
      = Except.error "AttributeError" :=
  ⟨rfl, rfl, rfl, rfl⟩

/-- C2: the claim's append behaviour holds but its cash behaviour fails on the code.
Entering a one-leg combination with per-unit cost 80 (ask 0.80 × multiplier 100) against a
10000 target appends the chosen combination (quantity 125) to the options inventory and
to the trade log, but cash is debited by 80 — the sum of the per-unit total costs of the
candidate rows (line 387) — not by the claimed total cost × quantity = 80 × 125 = 10000. -/
theorem c2_entry_execution_effects :
    (executeOptionEntries demoLegs1 100 0 [![callQuoteFix]] 10000
        (emptyState 1 10000)).optionsInventory
      = [entryRow demoLegs1 100 10000 0 ![callQuoteFix]] ∧
    (executeOptionEntries demoLegs1 100 0 [![callQuoteFix]] 10000
        (emptyState 1 10000)).tradeLog
      = [entryRow demoLegs1 100 10000 0 ![callQuoteFix]] ∧
    comboTotalCost demoLegs1 100 ![callQuoteFix] = 80 ∧
    (entryRow demoLegs1 100 10000 0 ![callQuoteFix]).totals.qty = 125 ∧
    (executeOptionEntries demoLegs1 100 0 [![callQuoteFix]] 10000
        (emptyState 1 10000)).currentCash = 10000 - 80 ∧
    (executeOptionEntries demoLegs1 100 0 [![callQuoteFix]] 10000
        (emptyState 1 10000)).currentCash ≠ 10000 - 80 * 125 := by
  have hc : comboTotalCost demoLegs1 100 ![callQuoteFix] = 80 := by
    rw [comboTotalCost, Fin.sum_univ_one]
    show (4/5 : ℚ) * 100 = 80
    norm_num
  have hfloor : (⌊(10000 : ℚ) / 80⌋ : ℤ) = 125 := by
    norm_num [Int.floor_eq_iff]
  have hq : (entryRow demoLegs1 100 10000 0 ![callQuoteFix]).totals.qty = 125 := by
    show entryQty 10000 (comboTotalCost demoLegs1 100 ![callQuoteFix]) = 125
    rw [entryQty, hc, hfloor]
    norm_num
  have hcash : (executeOptionEntries demoLegs1 100 0 [![callQuoteFix]] 10000
      (emptyState 1 10000)).currentCash = 10000 - 80 := by
    show (10000 : ℚ) - (comboTotalCost demoLegs1 100 ![callQuoteFix] + 0) = 10000 - 80
    rw [hc]
    norm_num
  refine ⟨rfl, rfl, hc, hq, hcash, ?_⟩
  rw [hcash]
  norm_num

/-- C3 counterexample: the claim's formula `floor(|target| / total cost)` (on either
reading of the division) disagrees with the code for a negative total cost.  A one-SELL-leg
entry with bid 0.805 has per-unit total cost −80.5; with target 10000 the code enters
quantity 125 = |⌊10000 / −80.5⌋|, while ⌊|10000| / (−80.5)⌋ = −125 and
⌊|10000 / (−80.5)|⌋ = 124. -/
theorem c3_counterexample :
    comboTotalCost sellLegs1 100 ![putQuoteFix] = -161/2 ∧
    (executeOptionEntries sellLegs1 100 0 [![putQuoteFix]] 10000
        (emptyState 1 0)).optionsInventory
      = [entryRow sellLegs1 100 10000 0 ![putQuoteFix]] ∧
    (entryRow sellLegs1 100 10000 0 ![putQuoteFix]).totals.qty = 125 ∧
    ⌊|(10000 : ℚ)| / (-161/2)⌋ ≠ 125 ∧
    ⌊|(10000 : ℚ) / (-161/2)|⌋ ≠ 125 := by
  have hc : comboTotalCost sellLegs1 100 ![putQuoteFix] = -161/2 := by
    rw [comboTotalCost, Fin.sum_univ_one]
    show -(161/200 : ℚ) * 100 = -161/2
    norm_num
  have hfneg : (⌊(10000 : ℚ) / (-161/2)⌋ : ℤ) = -125 := by
    rw [show (10000 : ℚ) / (-161/2) = -20000/161 by norm_num]
    rw [Int.floor_eq_iff]
    norm_num
  have hq : (entryRow sellLegs1 100 10000 0 ![putQuoteFix]).totals.qty = 125 := by
    show entryQty 10000 (comboTotalCost sellLegs1 100 ![putQuoteFix]) = 125
    rw [entryQty, hc, hfneg]
    norm_num
  refine ⟨hc, rfl, hq, ?_, ?_⟩
  · rw [show |(10000 : ℚ)| = 10000 by norm_num, hfneg]
    norm_num
  · rw [show |(10000 : ℚ) / (-161/2)| = 20000/161 by
      rw [show (10000 : ℚ) / (-161/2) = -(20000/161) by norm_num, abs_neg,
        abs_of_nonneg (by norm_num : (0 : ℚ) ≤ 20000/161)]]
    rw [show (⌊(20000/161 : ℚ)⌋ : ℤ) = 124 by rw [Int.floor_eq_iff]; norm_num]
    norm_num

/-- C3 (amended): the entered quantity is the *absolute value of the floor* of
target dollars / total cost per unit, `|⌊target / cost⌋|`; whenever the target is
non-negative and the total cost is positive this coincides with the claim's
`⌊|target| / cost⌋` (and with the two-leg 2.00/1.20 spread scenario giving 125). -/
theorem c3_entry_quantity {n : Nat} (legsSpec : Fin n → Leg) (spc : ℚ) (date : Nat)
    (r0 : Fin n → Quote) (rest : List (Fin n → Quote)) (allocDollars : ℚ)
    (st : BTState n) :
    (executeOptionEntries legsSpec spc date (r0 :: rest) allocDollars st).optionsInventory
      = st.optionsInventory ++ [entryRow legsSpec spc allocDollars date r0] ∧
    (entryRow legsSpec spc allocDollars date r0).totals.qty
      = |⌊allocDollars / comboTotalCost legsSpec spc r0⌋| ∧
    (0 ≤ allocDollars → 0 < comboTotalCost legsSpec spc r0 →
      (entryRow legsSpec spc allocDollars date r0).totals.qty
        = ⌊|allocDollars| / comboTotalCost legsSpec spc r0⌋) := by
  refine ⟨rfl, rfl, fun ha hc => ?_⟩
  show entryQty allocDollars (comboTotalCost legsSpec spc r0)
    = ⌊|allocDollars| / comboTotalCost legsSpec spc r0⌋
  rw [entryQty, abs_of_nonneg ha]
  exact abs_of_nonneg (Int.floor_nonneg.mpr (div_nonneg ha hc.le))

/-- C3 witness: the spec's vertical-spread scenario — BUY leg at ask 2.00, SELL leg at bid
1.20, multiplier 100, target 10000: total cost per unit 80, entered quantity
⌊|10000|/80⌋ = 125. -/
theorem c3_witness :
    (0 : ℚ) ≤ 10000 ∧
    0 < comboTotalCost demoLegs2 100 ![buyQuoteFix, sellQuoteFix] ∧
    comboTotalCost demoLegs2 100 ![buyQuoteFix, sellQuoteFix] = 80 ∧
    (entryRow demoLegs2 100 10000 0 ![buyQuoteFix, sellQuoteFix]).totals.qty
      = ⌊|(10000 : ℚ)| / comboTotalCost demoLegs2 100 ![buyQuoteFix, sellQuoteFix]⌋ ∧
    (entryRow demoLegs2 100 10000 0 ![buyQuoteFix, sellQuoteFix]).totals.qty = 125 := by
  have hc : comboTotalCost demoLegs2 100 ![buyQuoteFix, sellQuoteFix] = 80 := by
    rw [comboTotalCost, Fin.sum_univ_two]
    show (2 : ℚ) * 100 + -(6/5 : ℚ) * 100 = 80
    norm_num
  have hpos : 0 < comboTotalCost demoLegs2 100 ![buyQuoteFix, sellQuoteFix] := by
    rw [hc]
    norm_num
  have happ := (c3_entry_quantity demoLegs2 100 0 ![buyQuoteFix, sellQuoteFix] [] 10000
    (emptyState 2 0)).2.2 (by norm_num) hpos
  refine ⟨by norm_num, hpos, hc, happ, ?_⟩
  rw [happ, hc, show |(10000 : ℚ)| = 10000 by norm_num]
  norm_num [Int.floor_eq_iff]

end Backtester
